import Mathlib

/-!
Shallow embedding of the mr-provisioner Ansible role's library modules:

* `library/mr_provisioner_get_ip.py`        (class `IPGetter`)
* `library/mr_provisioner_netboot_switch.py` (class `NetbootSwitcher`)
* `library/mr_provisioner_preseed.py`       (class `PreseedUploader`, the
  error-dict returning variant)
* `library/preseed_upload_module.py`        (class `PreseedUploader`, the
  error-swallowing variant)

HTTP round trips are modelled by passing the response a request would
receive as data (`HttpResp`); the requests a function issues are collected
in an explicit trace so that claims about which requests are sent can be
stated.  Raised `ProvisionerError`s become `Except.error` values or
explicit outcome constructors; each distinct raise site in the Python
source has its own constructor of `ProvError`.
-/

namespace MrProv

/-- An HTTP response as seen by the Python code: `r.status_code`,
`r.reason`, and the parsed JSON body `r.json()`. -/
structure HttpResp (α : Type) where
  status_code : Nat
  reason : String
  body : α
  deriving DecidableEq, Repr

/-- The `ProvisionerError` exception, split by raise site.  The Python
classes share a single exception type whose message string distinguishes
the cases; here each distinct format string is a constructor carrying the
data interpolated into the message. -/
inductive ProvError where
  /-- raise site: a GET returned a status other than 200
  (message `Error fetching ..., HTTP ...`). -/
  | fetchFailed (status : Nat) (reason : String)
  /-- raise site: machine search returned zero results
  (message `Error no assigned machine found with name ...`). -/
  | notFound (machine_name : String)
  /-- raise site: machine search returned more than one result
  (message `Error more than one machine found with name ...`). -/
  | ambiguous (machine_name : String)
  /-- raise site in `IPGetter.get_interfaces`: the machine record's `id`
  field is falsy (message `No ID found for machine ...`). -/
  | noIdFound (machine_name : String)
  /-- raise site in `IPGetter.get_interfaces`: the interface collection is
  empty (message `Error no machine with id ...`). -/
  | noMachineWithId (machine_id : Int)
  /-- raise site in `NetbootSwitcher.switch_netboot_flag`: PUT of the
  machine returned a status outside 200/202 (message `Error PUTing ...`). -/
  | putMachineFailed (status : Nat) (reason : String)
  /-- raise site in `PreseedUploader.upload_preseed`: POST of a preseed
  returned a status other than 201 (message `Error posting preseed ...`). -/
  | postPreseedFailed (preseed_name : String) (status : Nat) (reason : String)
  /-- raise site in `PreseedUploader._modify_preseed`: PUT of a preseed
  returned a status other than 200 (message `Error putting preseed ...`). -/
  | putPreseedFailed (preseed_name : String) (id : Int) (status : Nat) (reason : String)
  /-- raise site in `PreseedUploader._modify_preseed`: called while
  `self.id == -1` (message `preseed ID is undefined ...`). -/
  | undefinedPreseedId
  deriving DecidableEq, Repr

/-- A machine record as returned by `GET /api/v1/machine?q=...`: the
fields of the JSON object that the embedded code reads or writes. -/
structure MachineJson where
  id : Int
  name : String
  netboot_enabled : Bool
  deriving DecidableEq, Repr

/-- An interface record as returned by `GET /api/v1/machine/id/interface`:
the fields `IPGetter.get_ip` reads.  JSON `null`/missing strings are
modelled as `""` (both are falsy in the Python truthiness test). -/
structure InterfaceJson where
  identifier : String
  config_type_v4 : String
  configured_ipv4 : String
  lease_ipv4 : String
  deriving DecidableEq, Repr

namespace GetIP

/-- `IPGetter.get_machine_by_name` from `mr_provisioner_get_ip.py`:
raise `fetchFailed` on non-200, `notFound` on an empty result list,
`ambiguous` on more than one result, else return `r.json()[0]`. -/
def get_machine_by_name (machine_name : String)
    (r : HttpResp (List MachineJson)) : Except ProvError MachineJson :=
  if r.status_code ≠ 200 then
    .error (.fetchFailed r.status_code r.reason)
  else
    match r.body with
    | [] => .error (.notFound machine_name)
    | [m] => .ok m
    | _ :: _ :: _ => .error (.ambiguous machine_name)

/-- `IPGetter.get_interfaces`: resolve the machine (re-raising any
`ProvisionerError`), require a truthy `id` (a JSON integer is falsy
exactly when it is 0), then fetch the interface collection for that id;
raise `fetchFailed` on non-200 and `noMachineWithId` on an empty
collection; on success the Python code returns the response object `r`
itself, modelled as returning `ifaceResp`. -/
def get_interfaces (machine_name : String)
    (machResp : HttpResp (List MachineJson))
    (ifaceResp : HttpResp (List InterfaceJson)) :
    Except ProvError (HttpResp (List InterfaceJson)) :=
  match get_machine_by_name machine_name machResp with
  | .error e => .error e
  | .ok res =>
    if res.id == 0 then
      .error (.noIdFound machine_name)
    else if ifaceResp.status_code ≠ 200 then
      .error (.fetchFailed ifaceResp.status_code ifaceResp.reason)
    else if ifaceResp.body.length == 0 then
      .error (.noMachineWithId res.id)
    else
      .ok ifaceResp

/-- Outcome of `IPGetter.get_ip`.  The Python function either returns a
value (an address string, or `None` if a scan of record entries were to
fall through), or dies with one of two untyped exceptions:

* `typeError` — on the success path `get_interfaces` hands back the
  `requests.Response` object itself (its `return r`), and iterating a
  `Response` yields raw byte chunks of the body (`iter_content(128)`),
  not parsed records; the body of a JSON list response is never empty
  (even `[]` serialises to two bytes), so the first loop iteration
  evaluates `i['identifier']` on a `bytes` chunk and raises `TypeError`;
* `nameError` — on the failure path the `except ProvisionerError` branch
  only prints, after which the `for i in interfaces` line reads the
  local variable `interfaces` that was never assigned. -/
inductive GetIPOutcome where
  | result (ip : Option String)
  | typeError
  | nameError
  deriving DecidableEq, Repr

/-- The record-level selection rule written in the body of the
`for i in interfaces` loop of `IPGetter.get_ip`: for the first entry
whose `identifier` equals the requested interface name, return
`configured_ipv4` when `config_type_v4 == 'dynamic-reserved'` and
`configured_ipv4` is truthy (non-empty), else return `lease_ipv4`; with
no match the loop falls through (`None`).  This is the rule the loop
body spells out for parsed interface records — the iteration the source
actually performs (over `Response` byte chunks) never reaches it. -/
def scan_interfaces (interface : String) : List InterfaceJson → Option String
  | [] => none
  | i :: rest =>
    if i.identifier == interface then
      if i.config_type_v4 == "dynamic-reserved" && i.configured_ipv4 != "" then
        some i.configured_ipv4
      else
        some i.lease_ipv4
    else
      scan_interfaces interface rest

/-- `IPGetter.get_ip`: call `get_interfaces` inside
`try/except ProvisionerError`.  On the exception branch the code prints
and falls through to `for i in interfaces` with the local `interfaces`
unbound, which raises `NameError`.  On the success branch `interfaces`
is the `requests.Response` object, so the loop iterates byte chunks and
the first iteration raises `TypeError` at `i['identifier']` (the body of
a successful interface-list response is never empty); no branch returns
an address. -/
def get_ip (machine_name interface : String)
    (machResp : HttpResp (List MachineJson))
    (ifaceResp : HttpResp (List InterfaceJson)) : GetIPOutcome :=
  match get_interfaces machine_name machResp ifaceResp with
  | .error _ => .nameError
  | .ok _ => .typeError

end GetIP

namespace Netboot

/-- `NetbootSwitcher.get_machine_by_name` from
`mr_provisioner_netboot_switch.py`; textually the same checks as the
`IPGetter` version. -/
def get_machine_by_name (machine_name : String)
    (r : HttpResp (List MachineJson)) : Except ProvError MachineJson :=
  if r.status_code ≠ 200 then
    .error (.fetchFailed r.status_code r.reason)
  else
    match r.body with
    | [] => .error (.notFound machine_name)
    | [m] => .ok m
    | _ :: _ :: _ => .error (.ambiguous machine_name)

/-- `NetbootSwitcher.switch_netboot_flag`: set `netboot_enabled` to
`False` on the stored machine JSON and PUT the whole object; raise
`putMachineFailed` unless the response status is 200 or 202, else return
`r.json()`.  `putResp` maps the PUT body to the response the service
gives; the function also returns the body it sent. -/
def switch_netboot_flag (machine_json : MachineJson)
    (putResp : MachineJson → HttpResp MachineJson) :
    Except ProvError MachineJson × MachineJson :=
  let m := { machine_json with netboot_enabled := false }
  let r := putResp m
  if r.status_code == 200 || r.status_code == 202 then
    (.ok r.body, m)
  else
    (.error (.putMachineFailed r.status_code r.reason), m)

/-- A timed request event in the netboot module's execution: the time unit
is seconds since the machine search, and `do_timeout` (a blocking
`time.sleep(timeout)`) advances the clock by `timeout` before the PUT. -/
inductive NbEvent where
  | getMachines (t : Nat)
  | putMachine (t : Nat) (body : MachineJson)
  deriving DecidableEq, Repr

/-- Whether an event is the machine-update PUT. -/
def NbEvent.isPut : NbEvent → Bool
  | .putMachine _ _ => true
  | _ => false

/-- The `run_module` sequence of `mr_provisioner_netboot_switch.py` for
one invocation: construct `NetbootSwitcher` (which resolves the machine
at time 0), `do_timeout(timeout)` (blocking sleep of `timeout` units),
then `switch_netboot_flag` (the PUT, issued at time `timeout`).  Returns
the result together with the timed trace of requests issued. -/
def scheduleDisable (machine_name : String)
    (searchResp : HttpResp (List MachineJson)) (timeout : Nat)
    (putResp : MachineJson → HttpResp MachineJson) :
    Except ProvError MachineJson × List NbEvent :=
  match get_machine_by_name machine_name searchResp with
  | .error e => (.error e, [.getMachines 0])
  | .ok m =>
    let sw := switch_netboot_flag m putResp
    (sw.1, [.getMachines 0, .putMachine timeout sw.2])

end Netboot

namespace Preseed

/-- A preseed record as listed by `GET /api/v1/preseed?show_all=true`:
the fields the embedded code reads (`name`, `id`) plus `content`, which
the stateful service model needs to state the idempotence claim. -/
structure PreseedJson where
  id : Int
  name : String
  content : String
  deriving DecidableEq, Repr

/-- The JSON body `PreseedUploader._get_preseed_from_file` builds:
`content` read from the file, plus `name`, `type`, `public`,
`known_good`, and `description` only when the stored description is
non-empty. -/
structure PreseedBody where
  content : String
  name : String
  type : String
  public : Bool
  known_good : Bool
  description : Option String
  deriving DecidableEq, Repr

/-- The mutable state of a `PreseedUploader` instance: the constructor
arguments plus `id`, initialised to `-1`.  `fileContents` stands for what
`open(self.file, 'r')` yields when read (the file system is an external
collaborator); the sentinel test in the code compares the *path*
`self.file` against `'/dev/null'`. -/
structure Uploader where
  file : String
  name : String
  type : String
  id : Int
  desc : String
  knowngood : Bool
  public : Bool
  fileContents : String
  deriving DecidableEq, Repr

/-- `PreseedUploader.__init__`: store the arguments and set `id := -1`. -/
def mkUploader (file name type desc : String) (knowngood public : Bool)
    (fileContents : String) : Uploader :=
  { file := file, name := name, type := type, id := -1, desc := desc,
    knowngood := knowngood, public := public, fileContents := fileContents }

/-- A request the preseed uploader issues against the service. -/
inductive Req where
  | getList
  | putPreseed (id : Int) (body : PreseedBody)
  | postPreseed (body : PreseedBody)
  deriving DecidableEq, Repr

/-- Whether a request is the preseed PUT. -/
def Req.isPutReq : Req → Bool
  | .putPreseed _ _ => true
  | _ => false

/-- Whether a request is the preseed POST. -/
def Req.isPostReq : Req → Bool
  | .postPreseed _ => true
  | _ => false

/-- The provisioning service seen through the three preseed endpoints,
threading a service state `σ`: `list` answers
`GET /api/v1/preseed?show_all=true`, `put` answers
`PUT /api/v1/preseed/id`, `post` answers `POST /api/v1/preseed`. -/
structure PSvc (σ : Type) where
  list : σ → HttpResp (List PreseedJson) × σ
  put : Int → PreseedBody → σ → HttpResp PreseedJson × σ
  post : PreseedBody → σ → HttpResp PreseedJson × σ

/-- A stateless service that returns fixed responses: used to state the
single-invocation claims, where the response to each possible request is
universally quantified. -/
def constSvc (listResp : HttpResp (List PreseedJson))
    (putResp : Int → PreseedBody → HttpResp PreseedJson)
    (postResp : PreseedBody → HttpResp PreseedJson) : PSvc Unit :=
  { list := fun s => (listResp, s),
    put := fun i b s => (putResp i b, s),
    post := fun b s => (postResp b, s) }

/-- `PreseedUploader._check_for_existence` (identical in
`mr_provisioner_preseed.py` and `preseed_upload_module.py`): GET the full
preseed list, raise `fetchFailed` on non-200, then linearly scan for the
first entry whose `name` equals `self.name`; if found, set `self.id` to
its id and return `True`, else return `False`.  Returns the flag together
with the updated uploader state. -/
def check_for_existence (st : Uploader) (r : HttpResp (List PreseedJson)) :
    Except ProvError (Bool × Uploader) :=
  if r.status_code ≠ 200 then
    .error (.fetchFailed r.status_code r.reason)
  else
    match r.body.find? (fun p => p.name == st.name) with
    | some p => .ok (true, { st with id := p.id })
    | none => .ok (false, st)

/-- `PreseedUploader._get_preseed_from_file`: build the JSON body from the
file contents and the stored fields, adding `description` only when
`self.desc` is non-empty. -/
def get_preseed_from_file (st : Uploader) : PreseedBody :=
  { content := st.fileContents, name := st.name, type := st.type,
    public := st.public, known_good := st.knowngood,
    description := if st.desc != "" then some st.desc else none }

/-- `PreseedUploader._modify_preseed` from `mr_provisioner_preseed.py`:
raise `undefinedPreseedId` when `self.id == -1`; otherwise PUT the body
built from the file at `/api/v1/preseed/id`, raise `putPreseedFailed` on
non-200, else return `r.json()`.  Returns the result, the requests
issued, and the service state. -/
def modify_preseed (st : Uploader) (svc : PSvc σ) (s : σ) :
    Except ProvError PreseedJson × List Req × σ :=
  if st.id == -1 then
    (.error .undefinedPreseedId, [], s)
  else
    let body := get_preseed_from_file st
    let pr := svc.put st.id body s
    if pr.1.status_code ≠ 200 then
      (.error (.putPreseedFailed st.name st.id pr.1.status_code pr.1.reason),
       [.putPreseed st.id body], pr.2)
    else
      (.ok pr.1.body, [.putPreseed st.id body], pr.2)

/-- The content of the `res` dict `upload_preseed` returns when it puts an
`'error'` key in it, split by assignment site. -/
inductive UploadErr where
  /-- `res['error'] = str(e)` after `_check_for_existence` raised. -/
  | checkFailed (e : ProvError)
  /-- `res['error'] = 'Preseed does not exist and file not given'`. -/
  | missingContent
  /-- `res['error'] = str(e)` after `_modify_preseed` raised. -/
  | modifyFailed (e : ProvError)
  deriving DecidableEq, Repr

/-- Observable outcome of `PreseedUploader.upload_preseed` in
`mr_provisioner_preseed.py`: a `ProvisionerError` propagating out of the
call, a returned dict carrying an `'error'` key (which `run_module` turns
into `fail_json`), the empty dict `{}`, or a returned preseed JSON
record. -/
inductive UploadOutcome where
  | raised (e : ProvError)
  | errDict (e : UploadErr)
  | emptyDict
  | record (p : PreseedJson)
  deriving DecidableEq, Repr

/-- `PreseedUploader.upload_preseed` from `mr_provisioner_preseed.py`:

1. `res = {}`; `try: exists = self._check_for_existence()` — on
   `ProvisionerError`, return `{'error': str(e)}`.
2. `if not exists and self.file == '/dev/null'`: return
   `{'error': 'Preseed does not exist and file not given'}`.
3. `if self.id != -1 and self.file != '/dev/null'`: try
   `_modify_preseed`, catching `ProvisionerError` into `res['error']`,
   and return `res`.
4. `elif self.file != '/dev/null'`: POST the body built from the file;
   raise `postPreseedFailed` on non-201, else return `r.json()`.
5. `else`: return the (still empty) dict `res`.

Returns the outcome, the trace of requests issued, and the service
state. -/
def upload_preseed (st : Uploader) (svc : PSvc σ) (s0 : σ) :
    UploadOutcome × List Req × σ :=
  let ls := svc.list s0
  match check_for_existence st ls.1 with
  | .error e => (.errDict (.checkFailed e), [.getList], ls.2)
  | .ok es =>
    let st1 := es.2
    if !es.1 && st1.file == "/dev/null" then
      (.errDict .missingContent, [.getList], ls.2)
    else if st1.id != -1 && st1.file != "/dev/null" then
      match modify_preseed st1 svc ls.2 with
      | (.error e, tr, s2) => (.errDict (.modifyFailed e), .getList :: tr, s2)
      | (.ok pj, tr, s2) => (.record pj, .getList :: tr, s2)
    else if st1.file != "/dev/null" then
      let body := get_preseed_from_file st1
      let pr := svc.post body ls.2
      if pr.1.status_code ≠ 201 then
        (.raised (.postPreseedFailed st1.name pr.1.status_code pr.1.reason),
         [.getList, .postPreseed body], pr.2)
      else
        (.record pr.1.body, [.getList, .postPreseed body], pr.2)
    else
      (.emptyDict, [.getList], ls.2)

/-- `PreseedUploader._modify_preseed` from `preseed_upload_module.py`:
same checks as the other variant but with no `return` on success (the
Python function returns `None`). -/
def modify_preseed_v (st : Uploader) (svc : PSvc σ) (s : σ) :
    Except ProvError Unit × List Req × σ :=
  if st.id == -1 then
    (.error .undefinedPreseedId, [], s)
  else
    let body := get_preseed_from_file st
    let pr := svc.put st.id body s
    if pr.1.status_code ≠ 200 then
      (.error (.putPreseedFailed st.name st.id pr.1.status_code pr.1.reason),
       [.putPreseed st.id body], pr.2)
    else
      (.ok (), [.putPreseed st.id body], pr.2)

/-- `PreseedUploader.upload_preseed` from `preseed_upload_module.py`:
`try: self._check_for_existence() except ProvisionerError: print(...)` —
the caught error is discarded and execution continues with `self.id`
unchanged.  Then `if self.id != -1: self._modify_preseed()` (its
exceptions propagate), `else` POST the body built from the file, raising
`postPreseedFailed` on non-201.  The function returns `None` on success;
there is no `/dev/null` sentinel handling in this variant. -/
def upload_preseed_v (st : Uploader) (svc : PSvc σ) (s0 : σ) :
    Except ProvError Unit × List Req × σ :=
  let ls := svc.list s0
  let st1 := match check_for_existence st ls.1 with
             | .error _ => st
             | .ok es => es.2
  if st1.id != -1 then
    match modify_preseed_v st1 svc ls.2 with
    | (r, tr, s2) => (r, .getList :: tr, s2)
  else
    let body := get_preseed_from_file st1
    let pr := svc.post body ls.2
    if pr.1.status_code ≠ 201 then
      (.error (.postPreseedFailed st1.name pr.1.status_code pr.1.reason),
       [.getList, .postPreseed body], pr.2)
    else
      (.ok (), [.getList, .postPreseed body], pr.2)

/-- The preseed record the service stores after accepting body `b` with
id `i` (per the external-interface conventions of the service: create and
update carry the same body shape). -/
def applyBody (i : Int) (b : PreseedBody) : PreseedJson :=
  { id := i, name := b.name, content := b.content }

/-- A minimal model of the remote service's preseed store, used to state
the sequential-idempotence claim: a list of stored preseeds and the next
id to auto-assign. -/
structure Server where
  preseeds : List PreseedJson
  nextId : Int
  deriving DecidableEq, Repr

/-- The service conventions from the spec's external-interface section,
instantiated on `Server`: `list` answers 200 with the store; `post`
answers 201, appends a record under the auto-assigned fresh id and bumps
it; `put i` answers 200 and overwrites the record with id `i` when one
exists, else 404 leaving the store unchanged. -/
def serverSvc : PSvc Server :=
  { list := fun s => (⟨200, "OK", s.preseeds⟩, s),
    post := fun b s =>
      (⟨201, "CREATED", applyBody s.nextId b⟩,
       { preseeds := s.preseeds ++ [applyBody s.nextId b], nextId := s.nextId + 1 }),
    put := fun i b s =>
      if s.preseeds.any (fun p => p.id == i) then
        (⟨200, "OK", applyBody i b⟩,
         { s with preseeds := s.preseeds.map (fun p => if p.id == i then applyBody i b else p) })
      else
        (⟨404, "NOT FOUND", applyBody i b⟩, s) }

/-- Two sequential invocations of `upload_preseed` with fresh uploader
instances (as `run_module` constructs one per invocation) against the
stateful service model, returning both results. -/
def upsertTwice (path name type desc : String) (kg pub : Bool)
    (c1 c2 : String) (srv0 : Server) :
    (UploadOutcome × List Req × Server) × (UploadOutcome × List Req × Server) :=
  let r1 := upload_preseed (mkUploader path name type desc kg pub c1) serverSvc srv0
  let r2 := upload_preseed (mkUploader path name type desc kg pub c2) serverSvc r1.2.2
  (r1, r2)

end Preseed

/-! Helper lemmas. -/

/-- Linear search over an appended list continues in the right part when
the left part has no hit. -/
theorem find?_append_of_none {α : Type} (l1 l2 : List α) (p : α → Bool)
    (h : l1.find? p = none) : (l1 ++ l2).find? p = l2.find? p := by
  induction l1 with
  | nil => rfl
  | cons a t ih =>
    cases hpa : p a with
    | true => simp [List.find?_cons, hpa] at h
    | false =>
      simp only [List.find?_cons, hpa] at h
      simp only [List.cons_append, List.find?_cons, hpa]
      exact ih h

/-- A map that fixes every element of a list fixes the list. -/
theorem map_id_of_mem {α : Type} (l : List α) (f : α → α)
    (h : ∀ x ∈ l, f x = x) : l.map f = l := by
  induction l with
  | nil => rfl
  | cons a t ih =>
    simp only [List.map_cons, h a (by simp)]
    rw [ih fun x hx => h x (by simp [hx])]

/-! Claim theorems. -/

/-- C1: for every machine-name search result set (a 200 response), if it
contains exactly one machine, resolve returns that machine's record (and
hence identifier); if it is empty, resolve fails with the NotFound error;
if it contains more than one machine, resolve fails with the
AmbiguousResource error — for both embedded resolvers (`IPGetter` and
`NetbootSwitcher`). -/
theorem resolve_trichotomy (machine_name : String)
    (r : HttpResp (List MachineJson)) (h : r.status_code = 200) :
    (r.body = [] →
      GetIP.get_machine_by_name machine_name r = .error (.notFound machine_name) ∧
      Netboot.get_machine_by_name machine_name r = .error (.notFound machine_name)) ∧
    (∀ m, r.body = [m] →
      GetIP.get_machine_by_name machine_name r = .ok m ∧
      Netboot.get_machine_by_name machine_name r = .ok m) ∧
    (∀ m1 m2 rest, r.body = m1 :: m2 :: rest →
      GetIP.get_machine_by_name machine_name r = .error (.ambiguous machine_name) ∧
      Netboot.get_machine_by_name machine_name r = .error (.ambiguous machine_name)) := by
  refine ⟨fun hb => ?_, fun m hb => ?_, fun m1 m2 rest hb => ?_⟩ <;>
    simp [GetIP.get_machine_by_name, Netboot.get_machine_by_name, h, hb]

/-- Witness for C1 at a concrete singleton result set. -/
theorem resolve_trichotomy_witness :
    (HttpResp.mk 200 "OK" [MachineJson.mk 3 "node1" true]).status_code = 200 ∧
    GetIP.get_machine_by_name "node1" ⟨200, "OK", [⟨3, "node1", true⟩]⟩ =
      .ok ⟨3, "node1", true⟩ ∧
    Netboot.get_machine_by_name "node1" ⟨200, "OK", [⟨3, "node1", true⟩]⟩ =
      .ok ⟨3, "node1", true⟩ :=
  ⟨rfl, (resolve_trichotomy "node1" ⟨200, "OK", [⟨3, "node1", true⟩]⟩ rfl).2.1
    ⟨3, "node1", true⟩ rfl⟩

/-- C2 (code bug): the claimed selection policy is exactly what the
loop body spells out for parsed interface records — at the spec table's
first row `scan_interfaces` selects `configured_ipv4` — but on that very
input (machine search 200 with one machine of id 3, interface listing
200 with the matching `eth1` entry) `get_ip` terminates with the untyped
`TypeError`: `get_interfaces` returns the `requests.Response` object
(`return r` instead of `return r.json()`), whose iteration yields byte
chunks, so no address is ever returned. -/
theorem selectIP_priority_code_bug :
    GetIP.scan_interfaces "eth1"
      [⟨"eth1", "dynamic-reserved", "10.0.0.5", "10.0.0.9"⟩] =
      some "10.0.0.5" ∧
    GetIP.get_ip "node1" "eth1" ⟨200, "OK", [⟨3, "node1", true⟩]⟩
      ⟨200, "OK", [⟨"eth1", "dynamic-reserved", "10.0.0.5", "10.0.0.9"⟩]⟩ =
      .typeError :=
  ⟨rfl, rfl⟩

/-- C8 (code bug): on a successful fetch of a non-empty interface
collection with no `eth1` entry, the loop's record-level rule would fall
through and produce no value (`scan_interfaces` gives `none`, as the
claim describes) — but on that input `get_ip` terminates with the
untyped `TypeError` on the first byte chunk of the iterated
`requests.Response`, before any fall-through can happen. -/
theorem selectIP_unmatched_code_bug :
    GetIP.scan_interfaces "eth1"
      [⟨"eth0", "static", "10.0.0.5", "10.0.0.9"⟩] = none ∧
    GetIP.get_ip "node1" "eth1" ⟨200, "OK", [⟨3, "node1", true⟩]⟩
      ⟨200, "OK", [⟨"eth0", "static", "10.0.0.5", "10.0.0.9"⟩]⟩ =
      .typeError :=
  ⟨rfl, rfl⟩

/-- C10: whenever `get_interfaces` fails with the typed provisioner
error, `get_ip` does not propagate it — the handler prints and then the
`for` loop reads the never-assigned local `interfaces`, so the call
terminates with an untyped `NameError` instead of returning a value or
raising the typed error. -/
theorem get_ip_nameError (machine_name interface : String)
    (machResp : HttpResp (List MachineJson))
    (ifaceResp : HttpResp (List InterfaceJson)) (e : ProvError)
    (herr : GetIP.get_interfaces machine_name machResp ifaceResp = .error e) :
    GetIP.get_ip machine_name interface machResp ifaceResp =
      .nameError := by
  unfold GetIP.get_ip
  rw [herr]

/-- C4: whenever the machine resolves, one invocation of the netboot
module issues its machine-update PUT only at time `timeout` (no PUT
event carries an earlier timestamp, the sleep having started at the
resolution time 0), and the PUTs in the trace are exactly one whose body
is the fetched machine with `netboot_enabled` set to `false`. -/
theorem scheduleDisable_ordering (machine_name : String)
    (searchResp : HttpResp (List MachineJson)) (timeout : Nat)
    (putResp : MachineJson → HttpResp MachineJson) (m : MachineJson)
    (hres : Netboot.get_machine_by_name machine_name searchResp = .ok m) :
    (Netboot.scheduleDisable machine_name searchResp timeout putResp).2.filter
        Netboot.NbEvent.isPut =
      [.putMachine timeout { m with netboot_enabled := false }] ∧
    (∀ t b, Netboot.NbEvent.putMachine t b ∈
        (Netboot.scheduleDisable machine_name searchResp timeout putResp).2 →
      timeout ≤ t) := by
  unfold Netboot.scheduleDisable
  rw [hres]
  constructor
  · simp [Netboot.switch_netboot_flag, Netboot.NbEvent.isPut]
    split <;> rfl
  · intro t b hmem
    simp [Netboot.switch_netboot_flag] at hmem
    omega

/-- Witness for C4: a concrete machine, a five-second timeout, and a
service accepting the PUT with 200. -/
theorem scheduleDisable_ordering_witness :
    Netboot.get_machine_by_name "node1" ⟨200, "OK", [⟨3, "node1", true⟩]⟩ =
      .ok ⟨3, "node1", true⟩ ∧
    (Netboot.scheduleDisable "node1" ⟨200, "OK", [⟨3, "node1", true⟩]⟩ 5
        (fun b => ⟨200, "OK", b⟩)).2.filter Netboot.NbEvent.isPut =
      [.putMachine 5 ⟨3, "node1", false⟩] :=
  ⟨rfl, (scheduleDisable_ordering "node1" ⟨200, "OK", [⟨3, "node1", true⟩]⟩ 5
    (fun b => ⟨200, "OK", b⟩) ⟨3, "node1", true⟩ rfl).1⟩

/-- C5: when the listed preseeds (a 200 response) contain no entry with
the target name and the content is absent (the `/dev/null` sentinel),
`upload_preseed` returns the `'error'` dict for missing content — which
`run_module` surfaces as a failure — and issues no request beyond the
listing GET, in particular no POST and no PUT. -/
theorem upsert_missingContent (st : Preseed.Uploader)
    (listResp : HttpResp (List Preseed.PreseedJson))
    (putResp : Int → Preseed.PreseedBody → HttpResp Preseed.PreseedJson)
    (postResp : Preseed.PreseedBody → HttpResp Preseed.PreseedJson)
    (hfile : st.file = "/dev/null")
    (hstatus : listResp.status_code = 200)
    (hnone : ∀ p ∈ listResp.body, p.name ≠ st.name) :
    Preseed.upload_preseed st (Preseed.constSvc listResp putResp postResp) () =
      (.errDict .missingContent, [.getList], ()) := by
  have hfind : listResp.body.find? (fun p => p.name == st.name) = none := by
    rw [List.find?_eq_none]
    intro p hp
    simpa using hnone p hp
  simp [Preseed.upload_preseed, Preseed.constSvc, Preseed.check_for_existence,
    hstatus, hfind, hfile]

/-- Witness for C5: an empty inventory and the `/dev/null` sentinel. -/
theorem upsert_missingContent_witness :
    (Preseed.mkUploader "/dev/null" "p1" "preseed" "" false false "").file =
      "/dev/null" ∧
    Preseed.upload_preseed
        (Preseed.mkUploader "/dev/null" "p1" "preseed" "" false false "")
        (Preseed.constSvc ⟨200, "OK", []⟩ (fun _ _ => ⟨200, "OK", ⟨1, "p1", ""⟩⟩)
          (fun _ => ⟨201, "CREATED", ⟨1, "p1", ""⟩⟩)) () =
      (.errDict .missingContent, [.getList], ()) :=
  ⟨rfl, upsert_missingContent _ _ _ _ rfl rfl (by simp)⟩

/-- C3 (amended): for every upsert invocation with content present
against a 200 listing, if the first listed entry whose name equals the
target name has an identifier other than `-1` (the uploader's internal
sentinel for "absent"), exactly one PUT is issued at that identifier
carrying the read content and all provided fields, and a non-200
response is surfaced as the transport-error failure dict; if no entry
matches, exactly one POST is issued carrying the read content and
fields, and a non-201 response raises the transport error. -/
theorem upsert_dispatch (st : Preseed.Uploader)
    (listResp : HttpResp (List Preseed.PreseedJson))
    (putResp : Int → Preseed.PreseedBody → HttpResp Preseed.PreseedJson)
    (postResp : Preseed.PreseedBody → HttpResp Preseed.PreseedJson)
    (hfile : st.file ≠ "/dev/null") (hfresh : st.id = -1)
    (hstatus : listResp.status_code = 200) :
    (∀ p0, listResp.body.find? (fun p => p.name == st.name) = some p0 →
      p0.id ≠ -1 →
      Preseed.upload_preseed st (Preseed.constSvc listResp putResp postResp) () =
        (if (putResp p0.id (Preseed.get_preseed_from_file st)).status_code ≠ 200
         then .errDict (.modifyFailed (.putPreseedFailed st.name p0.id
                (putResp p0.id (Preseed.get_preseed_from_file st)).status_code
                (putResp p0.id (Preseed.get_preseed_from_file st)).reason))
         else .record (putResp p0.id (Preseed.get_preseed_from_file st)).body,
         [.getList, .putPreseed p0.id (Preseed.get_preseed_from_file st)], ())) ∧
    (listResp.body.find? (fun p => p.name == st.name) = none →
      Preseed.upload_preseed st (Preseed.constSvc listResp putResp postResp) () =
        (if (postResp (Preseed.get_preseed_from_file st)).status_code ≠ 201
         then .raised (.postPreseedFailed st.name
                (postResp (Preseed.get_preseed_from_file st)).status_code
                (postResp (Preseed.get_preseed_from_file st)).reason)
         else .record (postResp (Preseed.get_preseed_from_file st)).body,
         [.getList, .postPreseed (Preseed.get_preseed_from_file st)], ())) := by
  have hfile' : (st.file == "/dev/null") = false := by simpa using hfile
  constructor
  · intro p0 hfind hid
    have hid' : (p0.id == -1) = false := by simpa using hid
    have hbody : Preseed.get_preseed_from_file { st with id := p0.id } =
        Preseed.get_preseed_from_file st := rfl
    by_cases hs : (putResp p0.id (Preseed.get_preseed_from_file st)).status_code = 200 <;>
      simp [Preseed.upload_preseed, Preseed.constSvc, Preseed.check_for_existence,
        Preseed.modify_preseed, hstatus, hfind, hfile', hid', bne, hbody, hs]
  · intro hfind
    by_cases hs : (postResp (Preseed.get_preseed_from_file st)).status_code = 201 <;>
      simp [Preseed.upload_preseed, Preseed.constSvc, Preseed.check_for_existence,
        hstatus, hfind, hfile', hfresh, bne, hs]

/-- C3 counterexample: content is present (`./f`) and the listing
contains an entry named `p1` — but that entry's identifier is `-1`, the
uploader's sentinel, so the code issues a POST and no PUT, where the
claim demands exactly one PUT at the entry's identifier. -/
theorem upsert_dispatch_counterexample :
    (Preseed.mkUploader "./f" "p1" "preseed" "" false false "X").file ≠
      "/dev/null" ∧
    ([Preseed.PreseedJson.mk (-1) "p1" "old"].any
        (fun p => p.name == "p1")) = true ∧
    ((Preseed.upload_preseed (Preseed.mkUploader "./f" "p1" "preseed" "" false false "X")
        (Preseed.constSvc ⟨200, "OK", [⟨-1, "p1", "old"⟩]⟩
          (fun i b => ⟨200, "OK", Preseed.applyBody i b⟩)
          (fun b => ⟨201, "CREATED", Preseed.applyBody 7 b⟩)) ()).2.1.any
      Preseed.Req.isPutReq) = false ∧
    ((Preseed.upload_preseed (Preseed.mkUploader "./f" "p1" "preseed" "" false false "X")
        (Preseed.constSvc ⟨200, "OK", [⟨-1, "p1", "old"⟩]⟩
          (fun i b => ⟨200, "OK", Preseed.applyBody i b⟩)
          (fun b => ⟨201, "CREATED", Preseed.applyBody 7 b⟩)) ()).2.1.any
      Preseed.Req.isPostReq) = true := by
  refine ⟨by decide, by decide, ?_, ?_⟩ <;> decide

/-- Witness for C3 (amended): both branches at concrete inputs — an
inventory holding `p1` under id 3 (PUT path) and an empty inventory
(POST path). -/
theorem upsert_dispatch_witness :
    Preseed.upload_preseed (Preseed.mkUploader "./f" "p1" "preseed" "" false false "X")
        (Preseed.constSvc ⟨200, "OK", [⟨3, "p1", "old"⟩]⟩
          (fun i b => ⟨200, "OK", Preseed.applyBody i b⟩)
          (fun b => ⟨201, "CREATED", Preseed.applyBody 7 b⟩)) () =
      (.record (Preseed.applyBody 3
          (Preseed.get_preseed_from_file
            (Preseed.mkUploader "./f" "p1" "preseed" "" false false "X"))),
       [.getList, .putPreseed 3
          (Preseed.get_preseed_from_file
            (Preseed.mkUploader "./f" "p1" "preseed" "" false false "X"))], ()) ∧
    Preseed.upload_preseed (Preseed.mkUploader "./f" "p1" "preseed" "" false false "X")
        (Preseed.constSvc ⟨200, "OK", []⟩
          (fun i b => ⟨200, "OK", Preseed.applyBody i b⟩)
          (fun b => ⟨201, "CREATED", Preseed.applyBody 7 b⟩)) () =
      (.record (Preseed.applyBody 7
          (Preseed.get_preseed_from_file
            (Preseed.mkUploader "./f" "p1" "preseed" "" false false "X"))),
       [.getList, .postPreseed
          (Preseed.get_preseed_from_file
            (Preseed.mkUploader "./f" "p1" "preseed" "" false false "X"))], ()) := by
  constructor
  · have h := (upsert_dispatch (Preseed.mkUploader "./f" "p1" "preseed" "" false false "X")
      ⟨200, "OK", [⟨3, "p1", "old"⟩]⟩
      (fun i b => ⟨200, "OK", Preseed.applyBody i b⟩)
      (fun b => ⟨201, "CREATED", Preseed.applyBody 7 b⟩)
      (by decide) rfl rfl).1 ⟨3, "p1", "old"⟩ (by decide) (by decide)
    simpa using h
  · have h := (upsert_dispatch (Preseed.mkUploader "./f" "p1" "preseed" "" false false "X")
      ⟨200, "OK", []⟩
      (fun i b => ⟨200, "OK", Preseed.applyBody i b⟩)
      (fun b => ⟨201, "CREATED", Preseed.applyBody 7 b⟩)
      (by decide) rfl rfl).2 rfl
    simpa using h

/-- C7 (amended): when the listing (a 200 response) contains an entry
whose name equals the target name and content is absent (the `/dev/null`
sentinel), the operation issues no mutation — no POST and no PUT, only
the listing GET — and returns the empty dict: the discovered record is
not returned, only its identifier was remembered internally. -/
theorem upsert_discovery_only (st : Preseed.Uploader)
    (listResp : HttpResp (List Preseed.PreseedJson))
    (putResp : Int → Preseed.PreseedBody → HttpResp Preseed.PreseedJson)
    (postResp : Preseed.PreseedBody → HttpResp Preseed.PreseedJson)
    (p0 : Preseed.PreseedJson)
    (hfile : st.file = "/dev/null")
    (hstatus : listResp.status_code = 200)
    (hfind : listResp.body.find? (fun p => p.name == st.name) = some p0) :
    Preseed.upload_preseed st (Preseed.constSvc listResp putResp postResp) () =
      (.emptyDict, [.getList], ()) := by
  simp [Preseed.upload_preseed, Preseed.constSvc, Preseed.check_for_existence,
    hstatus, hfind, hfile]

/-- C7 counterexample: at a concrete inventory holding `p1` under id 3
with content absent, the call returns the empty dict and not the
discovered record, contradicting the claim's "returns the discovered
preseed record". -/
theorem upsert_discovery_counterexample :
    (Preseed.upload_preseed
        (Preseed.mkUploader "/dev/null" "p1" "preseed" "" false false "")
        (Preseed.constSvc ⟨200, "OK", [⟨3, "p1", "X"⟩]⟩
          (fun i b => ⟨200, "OK", Preseed.applyBody i b⟩)
          (fun b => ⟨201, "CREATED", Preseed.applyBody 7 b⟩)) ()).1 =
      .emptyDict ∧
    (Preseed.upload_preseed
        (Preseed.mkUploader "/dev/null" "p1" "preseed" "" false false "")
        (Preseed.constSvc ⟨200, "OK", [⟨3, "p1", "X"⟩]⟩
          (fun i b => ⟨200, "OK", Preseed.applyBody i b⟩)
          (fun b => ⟨201, "CREATED", Preseed.applyBody 7 b⟩)) ()).1 ≠
      .record ⟨3, "p1", "X"⟩ := by
  constructor <;> decide

/-- Witness for C7 (amended) at the same concrete inventory. -/
theorem upsert_discovery_only_witness :
    (Preseed.mkUploader "/dev/null" "p1" "preseed" "" false false "").file =
      "/dev/null" ∧
    Preseed.upload_preseed
        (Preseed.mkUploader "/dev/null" "p1" "preseed" "" false false "")
        (Preseed.constSvc ⟨200, "OK", [⟨3, "p1", "X"⟩]⟩
          (fun i b => ⟨200, "OK", Preseed.applyBody i b⟩)
          (fun b => ⟨201, "CREATED", Preseed.applyBody 7 b⟩)) () =
      (.emptyDict, [.getList], ()) :=
  ⟨rfl, upsert_discovery_only _ _ _ _ ⟨3, "p1", "X"⟩ rfl rfl (by decide)⟩

/-- C9: the two near-duplicate upload implementations diverge when the
existence-check fetch fails (the listing answers HTTP 500): the
`preseed_upload_module.py` variant swallows the typed error and proceeds
to POST the file contents, while the `mr_provisioner_preseed.py` variant
returns the sentinel failure dict and issues no request beyond the
listing GET. -/
theorem upload_variants_diverge :
    Preseed.upload_preseed_v
        (Preseed.mkUploader "./f" "p1" "preseed" "" false false "X")
        (Preseed.constSvc ⟨500, "ERR", []⟩
          (fun i b => ⟨200, "OK", Preseed.applyBody i b⟩)
          (fun b => ⟨201, "CREATED", Preseed.applyBody 7 b⟩)) () =
      (.ok (), [.getList, .postPreseed
        (Preseed.get_preseed_from_file
          (Preseed.mkUploader "./f" "p1" "preseed" "" false false "X"))], ()) ∧
    Preseed.upload_preseed
        (Preseed.mkUploader "./f" "p1" "preseed" "" false false "X")
        (Preseed.constSvc ⟨500, "ERR", []⟩
          (fun i b => ⟨200, "OK", Preseed.applyBody i b⟩)
          (fun b => ⟨201, "CREATED", Preseed.applyBody 7 b⟩)) () =
      (.errDict (.checkFailed (.fetchFailed 500 "ERR")), [.getList], ()) := by
  constructor <;> rfl

/-- C6: calling upsert twice in sequence (fresh uploader each time, no
concurrent writer) against a store with no preseed of the target name —
and whose auto-assigned fresh id is honest: unused by existing records
and distinct from the client's `-1` sentinel — creates exactly one
resource: the first call issues exactly one POST and no PUT, the second
exactly one PUT and no POST, and afterwards exactly one stored preseed
carries the target name, with the content of the latest call. -/
theorem upsert_idempotent (path name type desc : String) (kg pub : Bool)
    (c1 c2 : String) (srv0 : Preseed.Server)
    (hpath : path ≠ "/dev/null")
    (hname : ∀ p ∈ srv0.preseeds, p.name ≠ name)
    (hfresh : ∀ p ∈ srv0.preseeds, p.id ≠ srv0.nextId)
    (hneg : srv0.nextId ≠ -1) :
    (Preseed.upsertTwice path name type desc kg pub c1 c2 srv0).1.2.1 =
      [.getList, .postPreseed (Preseed.get_preseed_from_file
        (Preseed.mkUploader path name type desc kg pub c1))] ∧
    (Preseed.upsertTwice path name type desc kg pub c1 c2 srv0).2.2.1 =
      [.getList, .putPreseed srv0.nextId (Preseed.get_preseed_from_file
        (Preseed.mkUploader path name type desc kg pub c2))] ∧
    (Preseed.upsertTwice path name type desc kg pub c1 c2 srv0).2.2.2.preseeds.filter
        (fun p => p.name == name) =
      [⟨srv0.nextId, name, c2⟩] := by
  have hpath' : (path == "/dev/null") = false := by simpa using hpath
  have hfind0 : srv0.preseeds.find? (fun p => p.name == name) = none := by
    rw [List.find?_eq_none]
    intro p hp
    simpa using hname p hp
  have hr1 : Preseed.upload_preseed
      (Preseed.mkUploader path name type desc kg pub c1) Preseed.serverSvc srv0 =
      (.record (Preseed.applyBody srv0.nextId (Preseed.get_preseed_from_file
          (Preseed.mkUploader path name type desc kg pub c1))),
       [.getList, .postPreseed (Preseed.get_preseed_from_file
          (Preseed.mkUploader path name type desc kg pub c1))],
       ⟨srv0.preseeds ++ [Preseed.applyBody srv0.nextId (Preseed.get_preseed_from_file
          (Preseed.mkUploader path name type desc kg pub c1))], srv0.nextId + 1⟩) := by
    simp [Preseed.upload_preseed, Preseed.serverSvc, Preseed.check_for_existence,
      Preseed.mkUploader, hfind0, hpath', bne]
  have hfind1 : (srv0.preseeds ++ [Preseed.applyBody srv0.nextId
        (Preseed.get_preseed_from_file
          (Preseed.mkUploader path name type desc kg pub c1))]).find?
      (fun p => p.name == name) =
      some (Preseed.applyBody srv0.nextId (Preseed.get_preseed_from_file
        (Preseed.mkUploader path name type desc kg pub c1))) := by
    rw [find?_append_of_none _ _ _ hfind0]
    simp [List.find?_cons, Preseed.applyBody, Preseed.get_preseed_from_file,
      Preseed.mkUploader]
  have hneq : (srv0.nextId == -1) = false := by simpa using hneg
  have hany : (srv0.preseeds ++ [Preseed.applyBody srv0.nextId
        (Preseed.get_preseed_from_file
          (Preseed.mkUploader path name type desc kg pub c1))]).any
      (fun p => p.id == srv0.nextId) = true := by
    simp [Preseed.applyBody]
  have hex : ∃ x ∈ srv0.preseeds ++
      [({ id := srv0.nextId, name := name, content := c1 } : Preseed.PreseedJson)],
      x.id = srv0.nextId :=
    ⟨{ id := srv0.nextId, name := name, content := c1 }, by simp, rfl⟩
  have hr2 : Preseed.upload_preseed
      (Preseed.mkUploader path name type desc kg pub c2) Preseed.serverSvc
      ⟨srv0.preseeds ++ [Preseed.applyBody srv0.nextId (Preseed.get_preseed_from_file
          (Preseed.mkUploader path name type desc kg pub c1))], srv0.nextId + 1⟩ =
      (.record (Preseed.applyBody srv0.nextId (Preseed.get_preseed_from_file
          (Preseed.mkUploader path name type desc kg pub c2))),
       [.getList, .putPreseed srv0.nextId (Preseed.get_preseed_from_file
          (Preseed.mkUploader path name type desc kg pub c2))],
       ⟨(srv0.preseeds ++ [Preseed.applyBody srv0.nextId (Preseed.get_preseed_from_file
            (Preseed.mkUploader path name type desc kg pub c1))]).map
          (fun p => if p.id == srv0.nextId then
            Preseed.applyBody srv0.nextId (Preseed.get_preseed_from_file
              (Preseed.mkUploader path name type desc kg pub c2)) else p),
        srv0.nextId + 1⟩) := by
    simp [Preseed.upload_preseed, Preseed.serverSvc, Preseed.check_for_existence,
      Preseed.modify_preseed, Preseed.mkUploader, Preseed.applyBody,
      Preseed.get_preseed_from_file, hfind0, hfind1, hpath', hneq, hneg, bne,
      hany]
    rw [if_pos hex]
    simp
  have hmap : (srv0.preseeds ++ [Preseed.applyBody srv0.nextId
        (Preseed.get_preseed_from_file
          (Preseed.mkUploader path name type desc kg pub c1))]).map
      (fun p => if p.id == srv0.nextId then
        Preseed.applyBody srv0.nextId (Preseed.get_preseed_from_file
          (Preseed.mkUploader path name type desc kg pub c2)) else p) =
      srv0.preseeds ++ [Preseed.applyBody srv0.nextId
        (Preseed.get_preseed_from_file
          (Preseed.mkUploader path name type desc kg pub c2))] := by
    rw [List.map_append]
    congr 1
    · exact map_id_of_mem _ _ fun p hp => by
        have hid : (p.id == srv0.nextId) = false := by simpa using hfresh p hp
        simp [hid]
    · simp [Preseed.applyBody]
  have hfilter0 : srv0.preseeds.filter (fun p => p.name == name) = [] := by
    rw [List.filter_eq_nil_iff]
    intro p hp
    simpa using hname p hp
  have e1 : (Preseed.upsertTwice path name type desc kg pub c1 c2 srv0).1 =
      Preseed.upload_preseed (Preseed.mkUploader path name type desc kg pub c1)
        Preseed.serverSvc srv0 := rfl
  have e2 : (Preseed.upsertTwice path name type desc kg pub c1 c2 srv0).2 =
      Preseed.upload_preseed (Preseed.mkUploader path name type desc kg pub c2)
        Preseed.serverSvc
        (Preseed.upload_preseed (Preseed.mkUploader path name type desc kg pub c1)
          Preseed.serverSvc srv0).2.2 := rfl
  refine ⟨?_, ?_, ?_⟩
  · simp [e1, hr1]
  · simp [e2, hr1, hr2]
  · simp only [e2, hr1, hr2]
    simp only [hmap, List.filter_append, hfilter0]
    simp [Preseed.applyBody, Preseed.get_preseed_from_file, Preseed.mkUploader]

/-- Witness for C6: two sequential upserts of `p1` with contents `X`
then `Y` against an initially empty store whose next id is 1. -/
theorem upsert_idempotent_witness :
    ("./f" : String) ≠ "/dev/null" ∧
    ((Preseed.upsertTwice "./f" "p1" "preseed" "" false false "X" "Y"
        ⟨[], 1⟩).1.2.1 =
      [.getList, .postPreseed (Preseed.get_preseed_from_file
        (Preseed.mkUploader "./f" "p1" "preseed" "" false false "X"))] ∧
    (Preseed.upsertTwice "./f" "p1" "preseed" "" false false "X" "Y"
        ⟨[], 1⟩).2.2.1 =
      [.getList, .putPreseed 1 (Preseed.get_preseed_from_file
        (Preseed.mkUploader "./f" "p1" "preseed" "" false false "Y"))] ∧
    (Preseed.upsertTwice "./f" "p1" "preseed" "" false false "X" "Y"
        ⟨[], 1⟩).2.2.2.preseeds.filter (fun p => p.name == "p1") =
      [⟨1, "p1", "Y"⟩]) :=
  ⟨by decide, upsert_idempotent "./f" "p1" "preseed" "" false false "X" "Y"
    ⟨[], 1⟩ (by decide) (by simp) (by simp) (by decide)⟩

/-- Witness for C10 at a concrete failing fetch (machine search answers
HTTP 500). -/
theorem get_ip_nameError_witness :
    GetIP.get_interfaces "node1" ⟨500, "ERR", []⟩ ⟨200, "OK", []⟩ =
      .error (.fetchFailed 500 "ERR") ∧
    GetIP.get_ip "node1" "eth1" ⟨500, "ERR", []⟩ ⟨200, "OK", []⟩ =
      .nameError :=
  ⟨rfl, get_ip_nameError "node1" "eth1" ⟨500, "ERR", []⟩ ⟨200, "OK", []⟩
    (.fetchFailed 500 "ERR") rfl⟩

end MrProv
